import Mathlib

/-!
Verification development for the VHS2MP4 video-digitization workflow.

The definitions below are a shallow embedding of the program's job store
(`vhs2mp4/db.py`), background worker (`vhs2mp4/services/jobs.py`), scene-merge
pass (`vhs2mp4/services/media.py`), ingest pipeline
(`vhs2mp4/services/ingest.py`, `vhs2mp4/config.py`) and the segment-export
loop (`vhs2mp4/app.py`).  SQLite rows become Lean structures, tables become
lists of rows, SQL UPDATE statements become maps over those lists, and Python
exceptions become explicit `Except`/`Option` values.  NULL-able TEXT columns
whose schema default is the empty string are modelled as `String` (with `""`
standing for "unset", exactly as the SQL `CASE WHEN col = ''` tests do);
NULL-able columns without such a default are modelled as `Option`.
-/

/-! ## Job rows (`db.py`, table `jobs`)

Schema (db.py, `PROJECT_SCHEMA`): `id, job_type, status, percent,
current_step, detail, tape_id, payload_json, result_json, error_text,
created_at, started_at, finished_at`; the TEXT columns default to `''` and
`percent` defaults to 0. -/

structure JobRow where
  id : Nat
  job_type : String
  status : String
  percent : Int
  current_step : String
  detail : String
  tape_id : Option Nat
  payload_json : String
  result_json : String
  error_text : String
  created_at : String
  started_at : String
  finished_at : String
  deriving Repr, DecidableEq

/-- The optional keyword arguments of `db.update_job` (db.py lines 540-550):
`percent`, `step`, `detail`, `status`, `result`, `error`; a `none` field is an
argument left at its `None` default, hence not part of the SQL SET clause. -/
structure JobUpdate where
  percent : Option Int := none
  step : Option String := none
  detail : Option String := none
  status : Option String := none
  result : Option String := none
  error : Option String := none
  deriving Repr, DecidableEq

/-- `max(0, min(100, int(percent)))` from db.py line 565. -/
def clampPercent (p : Int) : Int :=
  max 0 (min 100 p)

/-- The terminal-status set `{"success", "failed", "canceled", "stale"}`
tested at db.py line 581. -/
def isTerminalStatus (s : String) : Bool :=
  s = "success" || s = "failed" || s = "canceled" || s = "stale"

/-- The SET clause of `db.update_job` applied to a single row (db.py lines
561-595).  The Python code assembles one `UPDATE jobs SET ...` statement
containing a clause for each supplied argument, over pairwise-distinct
columns, so the whole clause list acts as one simultaneous update: each
supplied field overwrites its column, `percent` is clamped
(`max(0, min(100, int(percent)))`), and a supplied `status` additionally
writes `started_at` (when the status is `"running"`) or `finished_at` (when
the status is terminal) through `CASE WHEN col = '' THEN ? ELSE col END`. -/
def applyJobUpdate (now : String) (u : JobUpdate) (r : JobRow) : JobRow :=
  { r with
    percent := match u.percent with
      | some p => clampPercent p
      | none => r.percent,
    current_step := u.step.getD r.current_step,
    detail := u.detail.getD r.detail,
    status := u.status.getD r.status,
    started_at := match u.status with
      | some s =>
        if s = "running" then
          (if r.started_at = "" then now else r.started_at)
        else r.started_at
      | none => r.started_at,
    finished_at := match u.status with
      | some s =>
        if isTerminalStatus s then
          (if r.finished_at = "" then now else r.finished_at)
        else r.finished_at
      | none => r.finished_at,
    result_json := u.result.getD r.result_json,
    error_text := u.error.getD r.error_text }

/-- `db.update_job` on the jobs table: when no optional field was supplied the
function returns before issuing any statement (`if not fields: return`,
db.py line 592); otherwise `UPDATE jobs SET ... WHERE id = ?` rewrites the
addressed row and leaves every other row untouched. -/
def update_job (now : String) (job_id : Nat) (u : JobUpdate) (jobs : List JobRow) :
    List JobRow :=
  if u.percent = none && u.step = none && u.detail = none && u.status = none
      && u.result = none && u.error = none then
    jobs
  else
    jobs.map fun r => if r.id = job_id then applyJobUpdate now u r else r

/-- `db.create_job` (db.py lines 510-537): INSERT with
`status='queued', percent=0, current_step='', detail=''` and the schema
defaults `result_json='', error_text='', started_at='', finished_at=''`. -/
def create_job (now : String) (new_id : Nat) (job_type : String)
    (tape_id : Option Nat) (payload_json : String) (jobs : List JobRow) :
    List JobRow :=
  jobs ++ [{ id := new_id, job_type := job_type, status := "queued", percent := 0,
             current_step := "", detail := "", tape_id := tape_id,
             payload_json := payload_json, result_json := "", error_text := "",
             created_at := now, started_at := "", finished_at := "" }]

/-- The row transform of `db.mark_stale_jobs_on_startup` (db.py lines
630-662): the UPDATE's SET clause, applied exactly to the rows matched by
`WHERE status = 'running'`. -/
def markStaleRow (now : String) (r : JobRow) : JobRow :=
  if r.status = "running" then
    { r with
      status := "stale",
      error_text := if r.error_text = "" then
          "Job marked stale after server restart." else r.error_text,
      finished_at := if r.finished_at = "" then now else r.finished_at }
  else r

/-- `db.mark_stale_jobs_on_startup` on the jobs table. -/
def mark_stale_jobs_on_startup (now : String) (jobs : List JobRow) : List JobRow :=
  jobs.map (markStaleRow now)

/-! ## Background worker (`services/jobs.py`)

`enqueue_job(project_slug, job_id, job_callable)` submits `_run_job` to a
one-worker executor.  `_run_job` opens a connection, marks the job
`running`, then executes `result = job_callable(conn)` — the job callable is
applied to exactly ONE positional argument, the database connection (jobs.py
line 24).  A normal return commits and marks the job `success` with percent
100; any exception marks it `failed` with the exception text.

Every work function actually enqueued (app.py lines 1190, 1217, 1340, 1396)
is declared `def run_job(conn, progress) -> dict`, i.e. requires TWO
positional arguments.  To capture Python's calling convention the embedding
represents a work function as a function on the list of positional arguments
it receives; applying it to an argument list of the wrong length is the
`TypeError` that Python raises. -/

/-- A positional argument value passed to a Python callable, as far as the
job subsystem distinguishes them: the worker's database connection or a
progress-report callback. -/
inductive PyArg
  | connection
  | progressCallback
  deriving Repr, DecidableEq

/-- The positional-argument list of the call `job_callable(conn)` at jobs.py
line 24: exactly one argument, the worker's own connection. -/
def workerCallArgs : List PyArg :=
  [PyArg.connection]

/-- The work functions enqueued from app.py (e.g. `run_job(conn, progress)`
at lines 1217-1225): a call with exactly two positional arguments binds
`conn` and `progress` and runs the body; any other argument count raises
`TypeError`.  The body is abstracted by `body`, a function of the two bound
arguments. -/
def run_job_callable (body : PyArg → PyArg → String) (args : List PyArg) :
    Except String String :=
  match args with
  | [conn, progressArg] => Except.ok (body conn progressArg)
  | _ => Except.error "TypeError: run_job() missing 1 required positional argument: progress"

/-- `_run_job` from `enqueue_job` (jobs.py lines 20-50) acting on the jobs
table: mark `running`, call the job callable with `workerCallArgs`, then mark
`success` (percent 100, result stored) or `failed` (error text stored). -/
def enqueue_job_run (jobCallable : List PyArg → Except String String)
    (job_id : Nat) (now1 now2 : String) (jobs : List JobRow) : List JobRow :=
  let t1 := update_job now1 job_id { status := some "running" } jobs
  match jobCallable workerCallArgs with
  | Except.ok result =>
    update_job now2 job_id
      { status := some "success", percent := some 100, result := some result } t1
  | Except.error e =>
    update_job now2 job_id { status := some "failed", error := some e } t1

/-! ## Scene-segment merge pass (`services/media.py`)

`_merge_short_segments` (media.py lines 113-137) walks the segment list once,
keeping an output list `merged`; a segment shorter than
`_MIN_SEGMENT_SECONDS = 90.0` is absorbed into the last output segment, and a
segment is also absorbed when the last output segment is itself still
shorter than the threshold.  Seconds are modelled as rationals. -/

structure SceneSuggestion where
  start_seconds : Rat
  end_seconds : Rat
  confidence : Option Rat
  deriving Repr, DecidableEq

def minSegmentSeconds : Rat := 90

/-- The loop of `_merge_short_segments`, with the `merged` accumulator kept
in reverse order so that `merged[-1]` is the head. -/
def mergeShortSegmentsRev : List SceneSuggestion → List SceneSuggestion →
    List SceneSuggestion
  | acc, [] => acc
  | [], segment :: rest => mergeShortSegmentsRev [segment] rest
  | current :: accTail, segment :: rest =>
    if segment.end_seconds - segment.start_seconds < minSegmentSeconds then
      mergeShortSegmentsRev
        ({ start_seconds := current.start_seconds,
           end_seconds := segment.end_seconds,
           confidence := current.confidence } :: accTail) rest
    else if current.end_seconds - current.start_seconds < minSegmentSeconds then
      mergeShortSegmentsRev
        ({ start_seconds := current.start_seconds,
           end_seconds := segment.end_seconds,
           confidence := current.confidence } :: accTail) rest
    else
      mergeShortSegmentsRev (segment :: current :: accTail) rest

/-- `media._merge_short_segments`. -/
def merge_short_segments (segments : List SceneSuggestion) : List SceneSuggestion :=
  (mergeShortSegmentsRev [] segments).reverse

/-- Duration of a scene suggestion in seconds. -/
def segmentLength (s : SceneSuggestion) : Rat :=
  s.end_seconds - s.start_seconds

/-- The contiguous segment list with lengths `[40, 120, 30, 200]` named by
the spec: boundaries at 0, 40, 160, 190, 390 seconds. -/
def segmentsLen40_120_30_200 : List SceneSuggestion :=
  [⟨0, 40, none⟩, ⟨40, 160, none⟩, ⟨160, 190, none⟩, ⟨190, 390, none⟩]

/-! ## Theorems -/

/-- C2 (counterexample): on the segment list of lengths `[40, 120, 30, 200]`
the merge pass does NOT produce segments of lengths `[160, 230]` — the claim
as stated is false on the code. -/
theorem merge_pass_c2_counterexample :
    (merge_short_segments segmentsLen40_120_30_200).map segmentLength ≠ [160, 230] := by
  norm_num [merge_short_segments, mergeShortSegmentsRev, segmentsLen40_120_30_200,
    segmentLength, minSegmentSeconds]

/-- C2 (amended): on the segment list of lengths `[40, 120, 30, 200]`
(boundaries 0, 40, 160, 190, 390; 90-second threshold) the merge pass
produces exactly the two segments `[0, 160+30) = [0, 190)` and `[190, 390)`,
of lengths `[190, 200]`: the short 40-second segment extends forward to
absorb the 120-second one (giving a 160-second segment), the short
30-second segment is then absorbed backward into that preceding segment
(giving 190 seconds), and the 200-second segment is kept as is. -/
theorem merge_pass_c2_amended :
    merge_short_segments segmentsLen40_120_30_200 =
      [⟨0, 190, none⟩, ⟨190, 390, none⟩] ∧
    (merge_short_segments segmentsLen40_120_30_200).map segmentLength = [190, 200] := by
  constructor <;>
    norm_num [merge_short_segments, mergeShortSegmentsRev, segmentsLen40_120_30_200,
      segmentLength, minSegmentSeconds]

/-- C3: the startup stale-job sweep (`mark_stale_jobs_on_startup`) rewrites
exactly the rows whose status is `"running"`: each such row's status becomes
`"stale"`, its `error_text` receives the explanatory message only when it was
previously empty (and is kept otherwise), its `finished_at` is stamped only
when it was previously empty (and is kept otherwise), every other column of
the row is unchanged, and every row in any other status (e.g. `"success"`)
is left completely unchanged. -/
theorem mark_stale_sweep_c3 (now : String) (jobs : List JobRow) :
    List.Forall₂ (fun r rr =>
      (r.status = "running" →
        rr.status = "stale" ∧
        (r.error_text = "" →
          rr.error_text = "Job marked stale after server restart.") ∧
        (r.error_text ≠ "" → rr.error_text = r.error_text) ∧
        (r.finished_at = "" → rr.finished_at = now) ∧
        (r.finished_at ≠ "" → rr.finished_at = r.finished_at) ∧
        rr.id = r.id ∧ rr.job_type = r.job_type ∧ rr.percent = r.percent ∧
        rr.current_step = r.current_step ∧ rr.detail = r.detail ∧
        rr.tape_id = r.tape_id ∧ rr.payload_json = r.payload_json ∧
        rr.result_json = r.result_json ∧ rr.created_at = r.created_at ∧
        rr.started_at = r.started_at) ∧
      (r.status ≠ "running" → rr = r))
      jobs (mark_stale_jobs_on_startup now jobs) := by
  induction jobs with
  | nil => exact List.Forall₂.nil
  | cons r rest ih =>
    refine List.Forall₂.cons ?_ ih
    constructor
    · intro hrun
      simp [markStaleRow, hrun]
      constructor
      · intro he
        simp [he]
      · constructor
        · intro he
          simp [he]
        · constructor
          · intro hf
            simp [hf]
          · intro hf
            simp [hf]
    · intro hnot
      simp [markStaleRow, hnot]

/-- C3 witness: a two-row table with one `running` job (empty error text and
finish stamp) and one `success` job; the sweep relates them as stated. -/
theorem mark_stale_sweep_c3_witness :
    List.Forall₂ (fun r rr =>
      (r.status = "running" →
        rr.status = "stale" ∧
        (r.error_text = "" →
          rr.error_text = "Job marked stale after server restart.") ∧
        (r.error_text ≠ "" → rr.error_text = r.error_text) ∧
        (r.finished_at = "" → rr.finished_at = "T9") ∧
        (r.finished_at ≠ "" → rr.finished_at = r.finished_at) ∧
        rr.id = r.id ∧ rr.job_type = r.job_type ∧ rr.percent = r.percent ∧
        rr.current_step = r.current_step ∧ rr.detail = r.detail ∧
        rr.tape_id = r.tape_id ∧ rr.payload_json = r.payload_json ∧
        rr.result_json = r.result_json ∧ rr.created_at = r.created_at ∧
        rr.started_at = r.started_at) ∧
      (r.status ≠ "running" → rr = r))
      [{ id := 1, job_type := "ingest_file", status := "running", percent := 40,
         current_step := "Copy files", detail := "", tape_id := some 3,
         payload_json := "", result_json := "", error_text := "",
         created_at := "T0", started_at := "T1", finished_at := "" },
       { id := 2, job_type := "export_segments", status := "success", percent := 100,
         current_step := "Done", detail := "", tape_id := some 4,
         payload_json := "", result_json := "", error_text := "",
         created_at := "T0", started_at := "T1", finished_at := "T2" }]
      (mark_stale_jobs_on_startup "T9"
        [{ id := 1, job_type := "ingest_file", status := "running", percent := 40,
           current_step := "Copy files", detail := "", tape_id := some 3,
           payload_json := "", result_json := "", error_text := "",
           created_at := "T0", started_at := "T1", finished_at := "" },
         { id := 2, job_type := "export_segments", status := "success", percent := 100,
           current_step := "Done", detail := "", tape_id := some 4,
           payload_json := "", result_json := "", error_text := "",
           created_at := "T0", started_at := "T1", finished_at := "T2" }]) :=
  mark_stale_sweep_c3 "T9" _

/-- Percent range invariant: a row's percent lies in `[0, 100]`. -/
def percentInRange (r : JobRow) : Prop :=
  0 ≤ r.percent ∧ r.percent ≤ 100

/-- Every field of `applyJobUpdate` leaves `percent` alone except a supplied
`percent`, which is stored clamped. -/
theorem applyJobUpdate_percent (now : String) (u : JobUpdate) (r : JobRow) :
    (applyJobUpdate now u r).percent =
      match u.percent with
      | some p => clampPercent p
      | none => r.percent := by
  simp [applyJobUpdate]

/-- C4: every job update that supplies a percent value stores that value
clamped to `[0, 100]` (in particular 150 is stored as 100 and −5 as 0), and
consequently the percent of every row of the jobs table stays in `[0, 100]`
across `create_job` and arbitrary `update_job` calls. -/
theorem job_percent_clamped_c4 :
    (∀ (now : String) (u : JobUpdate) (r : JobRow) (p : Int), u.percent = some p →
      (applyJobUpdate now u r).percent = max 0 (min 100 p)) ∧
    (∀ (now : String) (u : JobUpdate) (r : JobRow), u.percent = some 150 →
      (applyJobUpdate now u r).percent = 100) ∧
    (∀ (now : String) (u : JobUpdate) (r : JobRow), u.percent = some (-5) →
      (applyJobUpdate now u r).percent = 0) ∧
    (∀ (now : String) (job_id : Nat) (u : JobUpdate) (jobs : List JobRow),
      (∀ r ∈ jobs, percentInRange r) →
      ∀ r ∈ update_job now job_id u jobs, percentInRange r) ∧
    (∀ (now : String) (new_id : Nat) (job_type : String) (tape_id : Option Nat)
      (payload_json : String) (jobs : List JobRow),
      (∀ r ∈ jobs, percentInRange r) →
      ∀ r ∈ create_job now new_id job_type tape_id payload_json jobs,
        percentInRange r) := by
  have hclamp : ∀ p : Int, 0 ≤ clampPercent p ∧ clampPercent p ≤ 100 := by
    intro p
    unfold clampPercent
    omega
  refine ⟨?_, ?_, ?_, ?_, ?_⟩
  · intro now u r p hp
    rw [applyJobUpdate_percent, hp]
    show clampPercent p = max 0 (min 100 p)
    rfl
  · intro now u r hp
    rw [applyJobUpdate_percent, hp]
    show clampPercent 150 = 100
    decide
  · intro now u r hp
    rw [applyJobUpdate_percent, hp]
    show clampPercent (-5) = 0
    decide
  · intro now job_id u jobs hrange r hr
    unfold update_job at hr
    split at hr
    · exact hrange r hr
    · rcases List.mem_map.mp hr with ⟨r0, hr0, heq⟩
      subst heq
      by_cases hid : r0.id = job_id
      · rw [if_pos hid]
        unfold percentInRange
        rw [applyJobUpdate_percent]
        cases hup : u.percent with
        | none => exact hrange r0 hr0
        | some p => exact hclamp p
      · rw [if_neg hid]
        exact hrange r0 hr0
  · intro now new_id job_type tape_id payload_json jobs hrange r hr
    unfold create_job at hr
    rcases List.mem_append.mp hr with h | h
    · exact hrange r h
    · rcases List.mem_singleton.mp h with rfl
      constructor <;> norm_num

/-- C4 witness: on a concrete row, an update supplying percent 150 stores
100, one supplying −5 stores 0, and a singleton table inside `[0, 100]`
stays inside `[0, 100]` after an `update_job`. -/
theorem job_percent_clamped_c4_witness :
    (applyJobUpdate "T1" { percent := some 150 }
      { id := 1, job_type := "ingest_file", status := "running", percent := 10,
        current_step := "", detail := "", tape_id := none, payload_json := "",
        result_json := "", error_text := "", created_at := "T0",
        started_at := "T1", finished_at := "" }).percent = 100 ∧
    (applyJobUpdate "T1" { percent := some (-5) }
      { id := 1, job_type := "ingest_file", status := "running", percent := 10,
        current_step := "", detail := "", tape_id := none, payload_json := "",
        result_json := "", error_text := "", created_at := "T0",
        started_at := "T1", finished_at := "" }).percent = 0 ∧
    ∀ r ∈ update_job "T1" 1 { percent := some 150 }
      [{ id := 1, job_type := "ingest_file", status := "running", percent := 10,
         current_step := "", detail := "", tape_id := none, payload_json := "",
         result_json := "", error_text := "", created_at := "T0",
         started_at := "T1", finished_at := "" }], percentInRange r := by
  refine ⟨job_percent_clamped_c4.2.1 "T1" _ _ rfl,
          job_percent_clamped_c4.2.2.1 "T1" _ _ rfl,
          job_percent_clamped_c4.2.2.2.1 "T1" 1 _ _ ?_⟩
  intro r hr
  rcases List.mem_singleton.mp hr with rfl
  constructor <;> norm_num

/-- The all-absent argument record of `update_job`: every optional field at
its `None` default. -/
def emptyJobUpdate : JobUpdate := {}

/-- C10 (counterexample): an `update_job` that supplies only `status`
(with value `"running"`) also changes the non-supplied `started_at` column
of the addressed row — the row does not merely get its supplied field
replaced, so "only the supplied fields of the addressed job row change" is
false on the code. -/
theorem update_job_frame_c10_counterexample :
    update_job "T1" 1 { status := some "running" }
      [{ id := 1, job_type := "ingest_file", status := "queued", percent := 0,
         current_step := "", detail := "", tape_id := none, payload_json := "",
         result_json := "", error_text := "", created_at := "T0",
         started_at := "", finished_at := "" }] =
      [{ id := 1, job_type := "ingest_file", status := "running", percent := 0,
         current_step := "", detail := "", tape_id := none, payload_json := "",
         result_json := "", error_text := "", created_at := "T0",
         started_at := "T1", finished_at := "" }] ∧
    update_job "T1" 1 { status := some "running" }
      [{ id := 1, job_type := "ingest_file", status := "queued", percent := 0,
         current_step := "", detail := "", tape_id := none, payload_json := "",
         result_json := "", error_text := "", created_at := "T0",
         started_at := "", finished_at := "" }] ≠
      [{ id := 1, job_type := "ingest_file", status := "running", percent := 0,
         current_step := "", detail := "", tape_id := none, payload_json := "",
         result_json := "", error_text := "", created_at := "T0",
         started_at := "", finished_at := "" }] := by
  constructor <;> decide

/-- `applyJobUpdate` writes `started_at` exactly through the
`CASE WHEN started_at = ''` clause attached to a supplied `"running"`
status. -/
theorem applyJobUpdate_started_at (now : String) (u : JobUpdate) (r : JobRow) :
    (applyJobUpdate now u r).started_at =
      match u.status with
      | some s =>
        if s = "running" then
          (if r.started_at = "" then now else r.started_at)
        else r.started_at
      | none => r.started_at := by
  simp [applyJobUpdate]

/-- `applyJobUpdate` writes `finished_at` exactly through the
`CASE WHEN finished_at = ''` clause attached to a supplied terminal
status. -/
theorem applyJobUpdate_finished_at (now : String) (u : JobUpdate) (r : JobRow) :
    (applyJobUpdate now u r).finished_at =
      match u.status with
      | some s =>
        if isTerminalStatus s then
          (if r.finished_at = "" then now else r.finished_at)
        else r.finished_at
      | none => r.finished_at := by
  simp [applyJobUpdate]

/-- C5: job timestamps are first-write-wins.  A status update to
`"running"` sets `started_at` only when it is still unset (and leaves it
unchanged otherwise); a status update to any terminal status
(`"success"`, `"failed"`, `"canceled"`, `"stale"`) sets `finished_at` only
when it is still unset; and applying the same transition a second time never
changes the already-set timestamp (for any non-empty timestamp string
written by the first update). -/
theorem job_timestamps_first_write_c5
    (now now2 : String) (u u2 : JobUpdate) (r : JobRow) (hnow : now ≠ "") :
    (u.status = some "running" →
      (r.started_at = "" → (applyJobUpdate now u r).started_at = now) ∧
      (r.started_at ≠ "" →
        (applyJobUpdate now u r).started_at = r.started_at) ∧
      (u2.status = some "running" →
        (applyJobUpdate now2 u2 (applyJobUpdate now u r)).started_at =
          (applyJobUpdate now u r).started_at)) ∧
    (∀ s, u.status = some s → isTerminalStatus s →
      (r.finished_at = "" → (applyJobUpdate now u r).finished_at = now) ∧
      (r.finished_at ≠ "" →
        (applyJobUpdate now u r).finished_at = r.finished_at) ∧
      (u2.status = some s →
        (applyJobUpdate now2 u2 (applyJobUpdate now u r)).finished_at =
          (applyJobUpdate now u r).finished_at)) := by
  constructor
  · intro hu
    have h1 : (applyJobUpdate now u r).started_at =
        if r.started_at = "" then now else r.started_at := by
      rw [applyJobUpdate_started_at, hu]
      simp
    have hne : (applyJobUpdate now u r).started_at ≠ "" := by
      rw [h1]
      by_cases he : r.started_at = ""
      · rw [if_pos he]
        exact hnow
      · rw [if_neg he]
        exact he
    refine ⟨?_, ?_, ?_⟩
    · intro he
      rw [h1, if_pos he]
    · intro he
      rw [h1, if_neg he]
    · intro hu2
      rw [applyJobUpdate_started_at, hu2]
      simp [hne]
  · intro s hu hterm
    have h1 : (applyJobUpdate now u r).finished_at =
        if r.finished_at = "" then now else r.finished_at := by
      rw [applyJobUpdate_finished_at, hu]
      simp [hterm]
    have hne : (applyJobUpdate now u r).finished_at ≠ "" := by
      rw [h1]
      by_cases he : r.finished_at = ""
      · rw [if_pos he]
        exact hnow
      · rw [if_neg he]
        exact he
    refine ⟨?_, ?_, ?_⟩
    · intro he
      rw [h1, if_pos he]
    · intro he
      rw [h1, if_neg he]
    · intro hu2
      rw [applyJobUpdate_finished_at, hu2]
      simp [hterm, hne]

/-- C5 witness: on a concrete queued row, the `"running"` update stamps
`started_at` with `"T1"`, a repeat keeps `"T1"`; a `"success"` update then
stamps `finished_at` with `"T1"`, a repeat keeps it. -/
theorem job_timestamps_first_write_c5_witness :
    ("T1" : String) ≠ "" ∧
    (({ status := some "running" } : JobUpdate).status = some "running" →
      (({ id := 1, job_type := "ingest_file", status := "queued", percent := 0,
          current_step := "", detail := "", tape_id := none, payload_json := "",
          result_json := "", error_text := "", created_at := "T0",
          started_at := "", finished_at := "" } : JobRow).started_at = "" →
        (applyJobUpdate "T1" { status := some "running" }
          { id := 1, job_type := "ingest_file", status := "queued", percent := 0,
            current_step := "", detail := "", tape_id := none, payload_json := "",
            result_json := "", error_text := "", created_at := "T0",
            started_at := "", finished_at := "" }).started_at = "T1") ∧
      (({ id := 1, job_type := "ingest_file", status := "queued", percent := 0,
          current_step := "", detail := "", tape_id := none, payload_json := "",
          result_json := "", error_text := "", created_at := "T0",
          started_at := "", finished_at := "" } : JobRow).started_at ≠ "" →
        (applyJobUpdate "T1" { status := some "running" }
          { id := 1, job_type := "ingest_file", status := "queued", percent := 0,
            current_step := "", detail := "", tape_id := none, payload_json := "",
            result_json := "", error_text := "", created_at := "T0",
            started_at := "", finished_at := "" }).started_at = "") ∧
      (({ status := some "running" } : JobUpdate).status = some "running" →
        (applyJobUpdate "T2" { status := some "running" }
          (applyJobUpdate "T1" { status := some "running" }
            { id := 1, job_type := "ingest_file", status := "queued", percent := 0,
              current_step := "", detail := "", tape_id := none, payload_json := "",
              result_json := "", error_text := "", created_at := "T0",
              started_at := "", finished_at := "" })).started_at =
          (applyJobUpdate "T1" { status := some "running" }
            { id := 1, job_type := "ingest_file", status := "queued", percent := 0,
              current_step := "", detail := "", tape_id := none, payload_json := "",
              result_json := "", error_text := "", created_at := "T0",
              started_at := "", finished_at := "" }).started_at)) := by
  refine ⟨by decide, ?_⟩
  exact (job_timestamps_first_write_c5 "T1" "T2"
    { status := some "running" } { status := some "running" }
    { id := 1, job_type := "ingest_file", status := "queued", percent := 0,
      current_step := "", detail := "", tape_id := none, payload_json := "",
      result_json := "", error_text := "", created_at := "T0",
      started_at := "", finished_at := "" } (by decide)).1

/-- C10 (amended): calling `update_job` with none of the optional fields
supplied is a no-op (the function returns before issuing any write), and in
general only the supplied fields of the addressed job row change — except
that a supplied status of `"running"` also stamps the empty `started_at`
and a supplied terminal status also stamps the empty `finished_at` (the
first-write-wins timestamp side effect); all other columns of the addressed
row and all other rows stay unchanged. -/
theorem update_job_frame_c10 (now : String) (job_id : Nat) (u : JobUpdate)
    (jobs : List JobRow) :
    update_job now job_id emptyJobUpdate jobs = jobs ∧
    List.Forall₂ (fun r rr =>
      (r.id ≠ job_id → rr = r) ∧
      (r.id = job_id →
        (u.percent = none → rr.percent = r.percent) ∧
        (u.step = none → rr.current_step = r.current_step) ∧
        (u.detail = none → rr.detail = r.detail) ∧
        (u.status = none → rr.status = r.status ∧ rr.started_at = r.started_at ∧
          rr.finished_at = r.finished_at) ∧
        (u.result = none → rr.result_json = r.result_json) ∧
        (u.error = none → rr.error_text = r.error_text) ∧
        (∀ s, u.status = some s → s ≠ "running" → rr.started_at = r.started_at) ∧
        (∀ s, u.status = some s → isTerminalStatus s = false →
          rr.finished_at = r.finished_at) ∧
        (∀ s, u.status = some s → s = "running" →
          rr.started_at = if r.started_at = "" then now else r.started_at) ∧
        (∀ s, u.status = some s → isTerminalStatus s = true →
          rr.finished_at = if r.finished_at = "" then now else r.finished_at) ∧
        rr.id = r.id ∧ rr.job_type = r.job_type ∧ rr.tape_id = r.tape_id ∧
        rr.payload_json = r.payload_json ∧ rr.created_at = r.created_at))
      jobs (update_job now job_id u jobs) := by
  have haddr : ∀ r : JobRow,
      (u.percent = none → (applyJobUpdate now u r).percent = r.percent) ∧
      (u.step = none → (applyJobUpdate now u r).current_step = r.current_step) ∧
      (u.detail = none → (applyJobUpdate now u r).detail = r.detail) ∧
      (u.status = none → (applyJobUpdate now u r).status = r.status ∧
        (applyJobUpdate now u r).started_at = r.started_at ∧
        (applyJobUpdate now u r).finished_at = r.finished_at) ∧
      (u.result = none → (applyJobUpdate now u r).result_json = r.result_json) ∧
      (u.error = none → (applyJobUpdate now u r).error_text = r.error_text) ∧
      (∀ s, u.status = some s → s ≠ "running" →
        (applyJobUpdate now u r).started_at = r.started_at) ∧
      (∀ s, u.status = some s → isTerminalStatus s = false →
        (applyJobUpdate now u r).finished_at = r.finished_at) ∧
      (∀ s, u.status = some s → s = "running" →
        (applyJobUpdate now u r).started_at =
          if r.started_at = "" then now else r.started_at) ∧
      (∀ s, u.status = some s → isTerminalStatus s = true →
        (applyJobUpdate now u r).finished_at =
          if r.finished_at = "" then now else r.finished_at) ∧
      (applyJobUpdate now u r).id = r.id ∧
      (applyJobUpdate now u r).job_type = r.job_type ∧
      (applyJobUpdate now u r).tape_id = r.tape_id ∧
      (applyJobUpdate now u r).payload_json = r.payload_json ∧
      (applyJobUpdate now u r).created_at = r.created_at := by
    intro r
    refine ⟨?_, ?_, ?_, ?_, ?_, ?_, ?_, ?_, ?_, ?_, ?_, ?_, ?_, ?_, ?_⟩
    · intro h
      simp [applyJobUpdate, h]
    · intro h
      simp [applyJobUpdate, h]
    · intro h
      simp [applyJobUpdate, h]
    · intro h
      refine ⟨?_, ?_, ?_⟩ <;> simp [applyJobUpdate, h]
    · intro h
      simp [applyJobUpdate, h]
    · intro h
      simp [applyJobUpdate, h]
    · intro s hs hne
      rw [applyJobUpdate_started_at, hs]
      simp [hne]
    · intro s hs hterm
      rw [applyJobUpdate_finished_at, hs]
      simp [hterm]
    · intro s hs hrun
      rw [applyJobUpdate_started_at, hs]
      simp [hrun]
    · intro s hs hterm
      rw [applyJobUpdate_finished_at, hs]
      simp [hterm]
    · simp [applyJobUpdate]
    · simp [applyJobUpdate]
    · simp [applyJobUpdate]
    · simp [applyJobUpdate]
    · simp [applyJobUpdate]
  constructor
  · simp [update_job, emptyJobUpdate]
  · unfold update_job
    split
    · rename_i hcond
      simp only [Bool.and_eq_true, decide_eq_true_eq] at hcond
      refine List.forall₂_same.mpr fun r _ => ⟨fun _ => rfl, fun _ => ?_⟩
      refine ⟨fun _ => rfl, fun _ => rfl, fun _ => rfl, fun _ => ⟨rfl, rfl, rfl⟩,
        fun _ => rfl, fun _ => rfl, ?_, ?_, ?_, ?_, rfl, rfl, rfl, rfl, rfl⟩
      · intro s hs
        rw [hcond.1.1.2] at hs
        exact absurd hs (by simp)
      · intro s hs
        rw [hcond.1.1.2] at hs
        exact absurd hs (by simp)
      · intro s hs
        rw [hcond.1.1.2] at hs
        exact absurd hs (by simp)
      · intro s hs
        rw [hcond.1.1.2] at hs
        exact absurd hs (by simp)
    · rw [List.forall₂_map_right_iff]
      refine List.forall₂_same.mpr fun r _ => ?_
      by_cases hid : r.id = job_id
      · rw [if_pos hid]
        exact ⟨fun hne => absurd hid hne, fun _ => haddr r⟩
      · rw [if_neg hid]
        exact ⟨fun _ => rfl, fun h => absurd h hid⟩

/-- C10 witness: on a singleton table, the all-absent update leaves the
table unchanged, and an update supplying only `detail` changes nothing but
the `detail` column of the addressed row. -/
theorem update_job_frame_c10_witness :
    update_job "T1" 1 emptyJobUpdate
      [{ id := 1, job_type := "ingest_file", status := "queued", percent := 0,
         current_step := "", detail := "", tape_id := none, payload_json := "",
         result_json := "", error_text := "", created_at := "T0",
         started_at := "", finished_at := "" }] =
      [{ id := 1, job_type := "ingest_file", status := "queued", percent := 0,
         current_step := "", detail := "", tape_id := none, payload_json := "",
         result_json := "", error_text := "", created_at := "T0",
         started_at := "", finished_at := "" }] :=
  (update_job_frame_c10 "T1" 1 { detail := some "hashing" }
    [{ id := 1, job_type := "ingest_file", status := "queued", percent := 0,
       current_step := "", detail := "", tape_id := none, payload_json := "",
       result_json := "", error_text := "", created_at := "T0",
       started_at := "", finished_at := "" }]).1

/-- C1 (code bug): the worker does NOT pass a progress callback to the
enqueued work function.  `_run_job` invokes `job_callable(conn)` with the
single positional argument `conn` — the worker's database connection — while
every enqueued work function is declared `run_job(conn, progress)` and
requires two positional arguments.  Consequently the invocation raises
`TypeError`, the exception handler catches it, and the job is immediately
marked `failed` with the `TypeError` text: no progress callback is ever
constructed or passed. -/
theorem worker_passes_connection_c1 :
    workerCallArgs = [PyArg.connection] ∧
    workerCallArgs ≠ [PyArg.progressCallback] ∧
    run_job_callable (fun _ _ => "ok") workerCallArgs =
      Except.error "TypeError: run_job() missing 1 required positional argument: progress" ∧
    (enqueue_job_run (run_job_callable (fun _ _ => "ok")) 1 "T1" "T2"
      (create_job "T0" 1 "export_segments" (some 7) "" [])).map
        (fun r => (r.id, r.status, r.error_text)) =
      [(1, "failed",
        "TypeError: run_job() missing 1 required positional argument: progress")] := by
  refine ⟨rfl, by decide, rfl, by decide⟩

/-! ## Ingest pipeline (`services/ingest.py`, `config.py`)

`ingest_inbox_file(conn, project_slug, filename, tape_id, progress)` works
against the filesystem and the `tapes` / `review_items` tables.  The
filesystem-dependent observations (file existence, extension check, content
digests, the conflict-free destination name, the copy outcome, the NAS
probes) are inputs of the embedding; the database state is explicit. -/

/-- Tape row: the columns of the `tapes` table that the ingest pipeline
reads or writes (db.py `PROJECT_SCHEMA`). -/
structure TapeRow where
  id : Nat
  tape_code : String
  title : String
  source_label : String
  date_type : String
  status : String
  raw_filename : Option String
  raw_path : Option String
  sha256 : Option String
  ingested_at : Option String
  backup_status : Option String
  created_at : String
  deriving Repr, DecidableEq

/-- A JSON scalar stored in a review-item payload. -/
inductive PayloadValue
  | s (v : String)
  | b (v : Bool)
  | null
  deriving Repr, DecidableEq

/-- Review-item row (`review_items` table): `created_at, status, type,
tape_id, message, payload_json`; the payload is `NULL` when the Python
payload argument is falsy. -/
structure ReviewItemRow where
  created_at : String
  status : String
  item_type : String
  tape_id : Option Nat
  message : String
  payload : Option (List (String × PayloadValue))
  deriving Repr, DecidableEq

/-- The two project tables the ingest pipeline mutates. -/
structure ProjectDb where
  tapes : List TapeRow
  review_items : List ReviewItemRow
  deriving Repr, DecidableEq

/-- The exception family the filesystem/copy operations inside the backup
attempt raise (`OSError`, whose subclasses include `shutil.Error`, and
`TimeoutError`): exactly the classes named by the
`except (OSError, TimeoutError)` handlers in ingest.py and config.py. -/
inductive OSException
  | osError (msg : String)
  | timeoutError (msg : String)
  deriving Repr, DecidableEq

/-- `str(exc)` for a caught exception. -/
def excText : OSException → String
  | OSException.osError m => m
  | OSException.timeoutError m => m

/-- Environment of one `_attempt_nas_backup` call (ingest.py lines 160-191):
`is_nas_available()` and `ensure_nas_project_dirs()` return booleans and
never raise (each catches `(OSError, TimeoutError)` internally, config.py
lines 85-106 and 137-175); `resolve_conflict_path` supplies `destName`; the
`shutil.copy2` call either succeeds or raises an `OSException`. -/
structure NasEnv where
  nasAvailable : Bool
  ensureDirsOk : Bool
  destName : String
  copyResult : Option OSException
  deriving Repr, DecidableEq

/-- `ingest._attempt_nas_backup`: returns the triple
`(success, nas_path, error_text)`.  The whole body is a `try` block whose
`except (OSError, TimeoutError)` clause converts a raised exception into
`(False, None, str(exc))`. -/
def attempt_nas_backup (env : NasEnv) : Bool × Option String × Option String :=
  if !env.nasAvailable then
    (false, none, some "NAS not available")
  else if !env.ensureDirsOk then
    (false, none, some "NAS directories could not be created")
  else
    match env.copyResult with
    | none => (true, some env.destName, none)
    | some exc => (false, none, some (excText exc))

/-- Python truthiness of the `tape_id: int | None` argument: `None` and `0`
are both falsy. -/
def optNatTruthy : Option Nat → Bool
  | none => false
  | some n => n != 0

/-- Environment of one `ingest_inbox_file` call: every filesystem
observation the function makes, in source order (ingest.py lines 200-399). -/
structure IngestEnv where
  fileExists : Bool
  fileIsMp4 : Bool
  inboxName : String
  sourceHash : String
  rawDestName : String
  rawDestStem : String
  rawDestPath : String
  copyResult : Option OSException
  rawHash : String
  newTapeCode : String
  nasBackupDirPath : String
  nas : NasEnv
  deriving Repr, DecidableEq

/-- The result dictionary of `ingest_inbox_file`, restricted to its `status`
tag and the data the status carries. -/
inductive IngestStatus
  | error (message : String)
  | already_ingested (tape_id : Nat)
  | ingested (tape_id : Nat) (backup_status : String)
  deriving Repr, DecidableEq

/-- `_create_review_item` (ingest.py lines 135-157). -/
def create_review_item (now : String) (item_type : String) (message : String)
    (tape_id : Option Nat) (payload : Option (List (String × PayloadValue)))
    (db : ProjectDb) : ProjectDb :=
  { db with review_items := db.review_items ++
      [{ created_at := now, status := "open", item_type := item_type,
         tape_id := tape_id, message := message, payload := payload }] }

/-- `ingest.ingest_inbox_file` (ingest.py lines 200-399): validation,
digest-based dedup short-circuit, optional target-tape validation, copy into
raw storage, tape update-or-insert plus `needs_metadata` review item, then
the best-effort NAS backup with its `needs_backup` review item, and the
final `backup_status` write.  `new_tape_id` is the rowid SQLite assigns to
an inserted tape. -/
def ingest_inbox_file (env : IngestEnv) (tape_id_arg : Option Nat)
    (new_tape_id : Nat) (now : String) (db : ProjectDb) :
    IngestStatus × ProjectDb :=
  if !env.fileExists then
    (IngestStatus.error ("File not found: " ++ env.inboxName), db)
  else if !env.fileIsMp4 then
    (IngestStatus.error ("Unsupported file type: " ++ env.inboxName), db)
  else
    match db.tapes.find? (fun t => t.sha256 == some env.sourceHash) with
    | some existing => (IngestStatus.already_ingested existing.id, db)
    | none =>
      if optNatTruthy tape_id_arg &&
          (db.tapes.find? (fun t => t.id == tape_id_arg.getD 0)).isNone then
        (IngestStatus.error ("Tape " ++ toString (tape_id_arg.getD 0) ++ " not found."), db)
      else
        match env.copyResult with
        | some exc => (IngestStatus.error ("Copy failed: " ++ excText exc), db)
        | none =>
          let created_tape_id :=
            if optNatTruthy tape_id_arg then tape_id_arg.getD 0 else new_tape_id
          let db1 :=
            if optNatTruthy tape_id_arg then
              { db with tapes := db.tapes.map fun t =>
                  if t.id = tape_id_arg.getD 0 then
                    { t with raw_filename := some env.rawDestName,
                             raw_path := some env.rawDestPath,
                             sha256 := some env.rawHash,
                             status := "Ingested",
                             ingested_at := some now,
                             backup_status := none }
                  else t }
            else
              create_review_item now "needs_metadata"
                "Tape was auto-created from filename. Add label/year/tags when you can."
                (some new_tape_id)
                (some [("priority", PayloadValue.s "low"),
                       ("skippable", PayloadValue.b true)])
                { db with tapes := db.tapes ++
                    [{ id := new_tape_id, tape_code := env.newTapeCode,
                       title := env.rawDestStem, source_label := env.inboxName,
                       date_type := "unknown", status := "Ingested",
                       raw_filename := some env.rawDestName,
                       raw_path := some env.rawDestPath,
                       sha256 := some env.rawHash,
                       ingested_at := some now, backup_status := none,
                       created_at := now }] }
          let backup := attempt_nas_backup env.nas
          let backup_status := if backup.1 then "backed_up" else "needs_backup"
          let db2 :=
            if backup.1 then db1
            else
              create_review_item now "needs_backup"
                ("NAS backup failed for " ++ env.rawDestName ++ " to "
                  ++ env.nasBackupDirPath)
                (some created_tape_id)
                (some [("attempted_path", PayloadValue.s env.nasBackupDirPath),
                       ("error",
                        match backup.2.2 with
                        | some e => PayloadValue.s e
                        | none => PayloadValue.null),
                       ("raw_path", PayloadValue.s env.rawDestPath)])
                db1
          let db3 := { db2 with tapes := db2.tapes.map fun t =>
              if t.id = created_tape_id then
                { t with backup_status := some backup_status }
              else t }
          (IngestStatus.ingested created_tape_id backup_status, db3)

/-- C6: ingest is idempotent on file content.  (1) Whenever some tape row
already carries the digest of the inbox file (whatever the filename), the
pipeline short-circuits with `already_ingested`, reports that tape's id, and
leaves the database untouched.  (2) A first successful ingest of
previously-unseen content (faithful copy, auto-created tape) leaves exactly
one tape row keyed by the content digest, and any second ingest of the same
content — under any filename — returns `already_ingested` with that tape's
id and changes nothing, so two ingests of the same content yield exactly one
tape row. -/
theorem ingest_idempotent_c6 :
    (∀ (env : IngestEnv) (tape_id_arg : Option Nat) (new_tape_id : Nat)
        (now : String) (db : ProjectDb) (t : TapeRow),
      env.fileExists = true → env.fileIsMp4 = true →
      db.tapes.find? (fun x => x.sha256 == some env.sourceHash) = some t →
      ingest_inbox_file env tape_id_arg new_tape_id now db =
        (IngestStatus.already_ingested t.id, db)) ∧
    (∀ (env : IngestEnv) (new_tape_id : Nat) (now : String) (db : ProjectDb),
      env.fileExists = true → env.fileIsMp4 = true →
      env.copyResult = none → env.rawHash = env.sourceHash →
      (∀ t ∈ db.tapes, t.sha256 ≠ some env.sourceHash) →
      (∀ t ∈ db.tapes, t.id ≠ new_tape_id) →
      ∃ bs : String,
        (ingest_inbox_file env none new_tape_id now db).1 =
          IngestStatus.ingested new_tape_id bs ∧
        (((ingest_inbox_file env none new_tape_id now db).2).tapes.filter
            (fun t => t.sha256 == some env.sourceHash)).length = 1 ∧
        (∀ (env2 : IngestEnv) (arg2 : Option Nat) (nid2 : Nat) (now2 : String),
          env2.fileExists = true → env2.fileIsMp4 = true →
          env2.sourceHash = env.sourceHash →
          ingest_inbox_file env2 arg2 nid2 now2
              (ingest_inbox_file env none new_tape_id now db).2 =
            (IngestStatus.already_ingested new_tape_id,
             (ingest_inbox_file env none new_tape_id now db).2))) := by
  constructor
  · intro env tape_id_arg new_tape_id now db t h1 h2 h3
    simp [ingest_inbox_file, h1, h2, h3]
  · intro env new_tape_id now db h1 h2 hcopy hfaithful hnew hfresh
    have hfind : db.tapes.find? (fun x => x.sha256 == some env.sourceHash) = none := by
      refine List.find?_eq_none.mpr fun t ht => ?_
      simp only [beq_iff_eq]
      exact hnew t ht
    have hstep :
        ∃ bs : String,
          (ingest_inbox_file env none new_tape_id now db).1 =
            IngestStatus.ingested new_tape_id bs ∧
          (ingest_inbox_file env none new_tape_id now db).2.tapes =
            db.tapes ++
              [{ id := new_tape_id, tape_code := env.newTapeCode,
                 title := env.rawDestStem, source_label := env.inboxName,
                 date_type := "unknown", status := "Ingested",
                 raw_filename := some env.rawDestName,
                 raw_path := some env.rawDestPath,
                 sha256 := some env.rawHash,
                 ingested_at := some now, backup_status := some bs,
                 created_at := now }] := by
      refine ⟨if (attempt_nas_backup env.nas).1 then "backed_up" else "needs_backup",
        ?_, ?_⟩
      · simp [ingest_inbox_file, h1, h2, hfind, hcopy, optNatTruthy]
      · simp only [ingest_inbox_file, h1, h2, hfind, hcopy, optNatTruthy,
          Bool.not_true, Bool.false_and, Bool.false_eq_true, if_false,
          create_review_item]
        have hmapfix : ∀ (f : TapeRow → TapeRow) (l : List TapeRow),
            (∀ t ∈ l, t.id ≠ new_tape_id) →
            (l.map fun t => if t.id = new_tape_id then f t else t) = l := by
          intro f l hl
          rw [List.map_congr_left (g := id) ?_, List.map_id]
          intro t ht
          simp [hl t ht]
        cases hb : (attempt_nas_backup env.nas).1 <;>
          simp [hb, List.map_append, hmapfix _ _ hfresh]
    rcases hstep with ⟨bs, hres, htapes⟩
    refine ⟨bs, hres, ?_, ?_⟩
    · rw [htapes, List.filter_append]
      have hnil : db.tapes.filter (fun t => t.sha256 == some env.sourceHash) = [] := by
        refine List.filter_eq_nil_iff.mpr fun t ht => ?_
        simp only [beq_iff_eq]
        exact hnew t ht
      rw [hnil]
      simp [hfaithful]
    · intro env2 arg2 nid2 now2 h21 h22 h2hash
      have hfind2 :
          (ingest_inbox_file env none new_tape_id now db).2.tapes.find?
            (fun x => x.sha256 == some env2.sourceHash) =
          some { id := new_tape_id, tape_code := env.newTapeCode,
                 title := env.rawDestStem, source_label := env.inboxName,
                 date_type := "unknown", status := "Ingested",
                 raw_filename := some env.rawDestName,
                 raw_path := some env.rawDestPath,
                 sha256 := some env.rawHash,
                 ingested_at := some now, backup_status := some bs,
                 created_at := now } := by
        rw [htapes, List.find?_append]
        have hnone : db.tapes.find? (fun x => x.sha256 == some env2.sourceHash) = none := by
          refine List.find?_eq_none.mpr fun t ht => ?_
          simp only [beq_iff_eq]
          rw [h2hash]
          exact hnew t ht
        rw [hnone]
        simp [h2hash, hfaithful]
      generalize hg : (ingest_inbox_file env none new_tape_id now db).2 = db1 at hfind2 ⊢
      simp [ingest_inbox_file, h21, h22, hfind2]

/-- C6 witness: concrete first and second ingest of the same content into an
initially empty project.  After the first ingest there is exactly one tape
row carrying digest `"h1"`, and a second ingest of the same content (under a
different filename) returns `already_ingested` for tape 1 and changes
nothing. -/
theorem ingest_idempotent_c6_witness :
    ∃ bs : String,
      (ingest_inbox_file
        { fileExists := true, fileIsMp4 := true, inboxName := "a.mp4",
          sourceHash := "h1", rawDestName := "a.mp4", rawDestStem := "a",
          rawDestPath := "/raw/a.mp4", copyResult := none, rawHash := "h1",
          newTapeCode := "TAPE_0001", nasBackupDirPath := "/nas/raw",
          nas := { nasAvailable := false, ensureDirsOk := false,
                   destName := "", copyResult := none } }
        none 1 "T0" { tapes := [], review_items := [] }).1 =
        IngestStatus.ingested 1 bs ∧
      (((ingest_inbox_file
        { fileExists := true, fileIsMp4 := true, inboxName := "a.mp4",
          sourceHash := "h1", rawDestName := "a.mp4", rawDestStem := "a",
          rawDestPath := "/raw/a.mp4", copyResult := none, rawHash := "h1",
          newTapeCode := "TAPE_0001", nasBackupDirPath := "/nas/raw",
          nas := { nasAvailable := false, ensureDirsOk := false,
                   destName := "", copyResult := none } }
        none 1 "T0" { tapes := [], review_items := [] }).2).tapes.filter
          (fun t => t.sha256 == some "h1")).length = 1 ∧
      (∀ (env2 : IngestEnv) (arg2 : Option Nat) (nid2 : Nat) (now2 : String),
        env2.fileExists = true → env2.fileIsMp4 = true →
        env2.sourceHash = "h1" →
        ingest_inbox_file env2 arg2 nid2 now2
            (ingest_inbox_file
              { fileExists := true, fileIsMp4 := true, inboxName := "a.mp4",
                sourceHash := "h1", rawDestName := "a.mp4", rawDestStem := "a",
                rawDestPath := "/raw/a.mp4", copyResult := none, rawHash := "h1",
                newTapeCode := "TAPE_0001", nasBackupDirPath := "/nas/raw",
                nas := { nasAvailable := false, ensureDirsOk := false,
                         destName := "", copyResult := none } }
              none 1 "T0" { tapes := [], review_items := [] }).2 =
          (IngestStatus.already_ingested 1,
           (ingest_inbox_file
              { fileExists := true, fileIsMp4 := true, inboxName := "a.mp4",
                sourceHash := "h1", rawDestName := "a.mp4", rawDestStem := "a",
                rawDestPath := "/raw/a.mp4", copyResult := none, rawHash := "h1",
                newTapeCode := "TAPE_0001", nasBackupDirPath := "/nas/raw",
                nas := { nasAvailable := false, ensureDirsOk := false,
                         destName := "", copyResult := none } }
              none 1 "T0" { tapes := [], review_items := [] }).2)) :=
  ingest_idempotent_c6.2
    { fileExists := true, fileIsMp4 := true, inboxName := "a.mp4",
      sourceHash := "h1", rawDestName := "a.mp4", rawDestStem := "a",
      rawDestPath := "/raw/a.mp4", copyResult := none, rawHash := "h1",
      newTapeCode := "TAPE_0001", nasBackupDirPath := "/nas/raw",
      nas := { nasAvailable := false, ensureDirsOk := false,
               destName := "", copyResult := none } }
    1 "T0" { tapes := [], review_items := [] }
    rfl rfl rfl rfl (by simp) (by simp)

/-- C8: a backup failure never makes ingest fail.  (1) An exception raised
by the copy inside `_attempt_nas_backup` is caught and converted into the
triple `(success = false, path = none, errorText)`; (2) every failing
backup attempt yields `path = none` and a non-empty error text; (3) when the
backup attempt fails, the ingest of a fresh file still completes with status
`ingested`, the tape's `backup_status` is set to `"needs_backup"`, and an
open `needs_backup` review item is appended carrying the attempted
destination and the error text. -/
theorem backup_failure_tolerated_c8 :
    (∀ (env : NasEnv) (exc : OSException),
      env.nasAvailable = true → env.ensureDirsOk = true →
      env.copyResult = some exc →
      attempt_nas_backup env = (false, none, some (excText exc))) ∧
    (∀ env : NasEnv, (attempt_nas_backup env).1 = false →
      (attempt_nas_backup env).2.1 = none ∧
      ∃ msg : String, (attempt_nas_backup env).2.2 = some msg) ∧
    (∀ (env : IngestEnv) (new_tape_id : Nat) (now : String) (db : ProjectDb)
        (e : String),
      env.fileExists = true → env.fileIsMp4 = true →
      db.tapes.find? (fun t => t.sha256 == some env.sourceHash) = none →
      env.copyResult = none →
      attempt_nas_backup env.nas = (false, none, some e) →
      (ingest_inbox_file env none new_tape_id now db).1 =
        IngestStatus.ingested new_tape_id "needs_backup" ∧
      (∃ t ∈ (ingest_inbox_file env none new_tape_id now db).2.tapes,
        t.id = new_tape_id ∧ t.backup_status = some "needs_backup") ∧
      (ingest_inbox_file env none new_tape_id now db).2.review_items =
        db.review_items ++
          [{ created_at := now, status := "open", item_type := "needs_metadata",
             tape_id := some new_tape_id,
             message := "Tape was auto-created from filename. Add label/year/tags when you can.",
             payload := some [("priority", PayloadValue.s "low"),
                              ("skippable", PayloadValue.b true)] },
           { created_at := now, status := "open", item_type := "needs_backup",
             tape_id := some new_tape_id,
             message := "NAS backup failed for " ++ env.rawDestName ++ " to "
               ++ env.nasBackupDirPath,
             payload := some [("attempted_path", PayloadValue.s env.nasBackupDirPath),
                              ("error", PayloadValue.s e),
                              ("raw_path", PayloadValue.s env.rawDestPath)] }]) := by
  refine ⟨?_, ?_, ?_⟩
  · intro env exc h1 h2 h3
    simp [attempt_nas_backup, h1, h2, h3]
  · intro env hfail
    unfold attempt_nas_backup at hfail ⊢
    by_cases h1 : env.nasAvailable
    · by_cases h2 : env.ensureDirsOk
      · simp [h1, h2] at hfail ⊢
        cases hc : env.copyResult with
        | none => rw [hc] at hfail; simp at hfail
        | some exc => simp
      · simp [h1, h2]
    · simp [h1]
  · intro env new_tape_id now db e h1 h2 hfind hcopy hback
    refine ⟨?_, ?_, ?_⟩
    · simp [ingest_inbox_file, h1, h2, hfind, hcopy, optNatTruthy, hback]
    · refine ⟨{ id := new_tape_id, tape_code := env.newTapeCode,
                title := env.rawDestStem, source_label := env.inboxName,
                date_type := "unknown", status := "Ingested",
                raw_filename := some env.rawDestName,
                raw_path := some env.rawDestPath,
                sha256 := some env.rawHash,
                ingested_at := some now, backup_status := some "needs_backup",
                created_at := now }, ?_, rfl, rfl⟩
      simp [ingest_inbox_file, h1, h2, hfind, hcopy, optNatTruthy, hback,
        create_review_item]
    · simp [ingest_inbox_file, h1, h2, hfind, hcopy, optNatTruthy, hback,
        create_review_item]

/-- C8 witness: a concrete ingest into an empty project where the NAS copy
raises an `OSError`; the backup attempt converts it to
`(false, none, "disk full")`, and the ingest completes with
`needs_backup`. -/
theorem backup_failure_tolerated_c8_witness :
    attempt_nas_backup
      { nasAvailable := true, ensureDirsOk := true, destName := "b.mp4",
        copyResult := some (OSException.osError "disk full") } =
      (false, none, some (excText (OSException.osError "disk full"))) ∧
    (ingest_inbox_file
      { fileExists := true, fileIsMp4 := true, inboxName := "b.mp4",
        sourceHash := "h2", rawDestName := "b.mp4", rawDestStem := "b",
        rawDestPath := "/raw/b.mp4", copyResult := none, rawHash := "h2",
        newTapeCode := "TAPE_0001", nasBackupDirPath := "/nas/raw",
        nas := { nasAvailable := true, ensureDirsOk := true,
                 destName := "b.mp4",
                 copyResult := some (OSException.osError "disk full") } }
      none 1 "T0" { tapes := [], review_items := [] }).1 =
      IngestStatus.ingested 1 "needs_backup" := by
  constructor
  · exact backup_failure_tolerated_c8.1
      { nasAvailable := true, ensureDirsOk := true, destName := "b.mp4",
        copyResult := some (OSException.osError "disk full") }
      (OSException.osError "disk full") rfl rfl rfl
  · exact (backup_failure_tolerated_c8.2.2
      { fileExists := true, fileIsMp4 := true, inboxName := "b.mp4",
        sourceHash := "h2", rawDestName := "b.mp4", rawDestStem := "b",
        rawDestPath := "/raw/b.mp4", copyResult := none, rawHash := "h2",
        newTapeCode := "TAPE_0001", nasBackupDirPath := "/nas/raw",
        nas := { nasAvailable := true, ensureDirsOk := true,
                 destName := "b.mp4",
                 copyResult := some (OSException.osError "disk full") } }
      1 "T0" { tapes := [], review_items := [] } "disk full"
      rfl rfl rfl rfl rfl).1

/-! ## Conflict-free placement (`ingest.resolve_conflict_path`)

`resolve_conflict_path(directory, filename)` (ingest.py lines 63-77) returns
`directory / filename` when that path does not exist; otherwise it tries
`f"{stem}_{counter}{suffix}"` for `counter = 1, 2, ...` until a name is
free.  File names are modelled as lists of Unicode code points and a
directory as the list of names it contains.  The Python loop is unbounded;
in a directory with `n` entries at most `n` candidate names can be occupied,
so the loop always returns within `n + 1` iterations — the embedding runs
the loop with fuel `n + 1` and the pigeonhole theorem below shows the fuel
is never exhausted. -/

/-- A file name: the list of its Unicode code points. -/
abbrev FileName := List Nat

/-- Code point of `'.'`. -/
def dotCode : Nat := 46

/-- Code point of `'_'`. -/
def underscoreCode : Nat := 95

/-- Code point of a decimal digit. -/
def digitCode (d : Nat) : Nat := 48 + d

/-- Index of the last `'.'` in a name (`str.rfind('.')`, `none` when
absent). -/
def rfindDot : FileName → Option Nat
  | [] => none
  | c :: rest =>
    match rfindDot rest with
    | some i => some (i + 1)
    | none => if c = dotCode then some 0 else none

/-- `pathlib.PurePath.stem` and `.suffix` as a pair: the name splits at the
last dot when that dot is neither leading nor trailing
(`0 < i < len(name) - 1` in pathlib's source); otherwise the suffix is
empty. -/
def pathSplit (name : FileName) : FileName × FileName :=
  match rfindDot name with
  | some i =>
    if 0 < i ∧ i + 1 < name.length then (name.take i, name.drop i)
    else (name, [])
  | none => (name, [])

/-- Decimal digit expansion, most significant first, with explicit fuel
(one division by 10 per unit of fuel). -/
def natDigitsAux : Nat → Nat → List Nat
  | 0, _ => []
  | fuel + 1, n =>
    if n < 10 then [digitCode n]
    else natDigitsAux fuel (n / 10) ++ [digitCode (n % 10)]

/-- `str(n)` for a natural number, as code points. -/
def natDigits (n : Nat) : List Nat :=
  natDigitsAux (n + 1) n

/-- Left fold reading a digit string back into a number. -/
def digitsVal (l : List Nat) : Nat :=
  l.foldl (fun acc c => acc * 10 + (c - 48)) 0

theorem digitsVal_natDigitsAux :
    ∀ (fuel n : Nat), n < fuel → digitsVal (natDigitsAux fuel n) = n := by
  intro fuel
  induction fuel with
  | zero => intro n h; omega
  | succ fuel ih =>
    intro n h
    rw [natDigitsAux]
    by_cases h10 : n < 10
    · simp [h10, digitsVal, digitCode]
    · have hrec : n / 10 < fuel := by omega
      simp only [h10, if_false]
      rw [digitsVal, List.foldl_append]
      have ihh := ih (n / 10) hrec
      rw [digitsVal] at ihh
      simp only [List.foldl_cons, List.foldl_nil, ihh, digitCode]
      omega

theorem digitsVal_natDigits (n : Nat) : digitsVal (natDigits n) = n :=
  digitsVal_natDigitsAux (n + 1) n (Nat.lt_succ_self n)

theorem natDigits_injective : Function.Injective natDigits := by
  intro a b h
  have hv := congrArg digitsVal h
  rwa [digitsVal_natDigits, digitsVal_natDigits] at hv

/-- The candidate name `f"{stem}_{counter}{suffix}"` built inside the
conflict loop. -/
def conflictCandidate (stem suffix : FileName) (k : Nat) : FileName :=
  stem ++ (underscoreCode :: (natDigits k ++ suffix))

theorem conflictCandidate_injective (stem suffix : FileName) :
    Function.Injective (conflictCandidate stem suffix) := by
  intro a b h
  unfold conflictCandidate at h
  have h1 := List.append_cancel_left h
  injection h1 with _ h2
  exact natDigits_injective (List.append_cancel_right h2)

/-- The `while True` loop of `resolve_conflict_path`, with explicit fuel:
try `stem_k.suffix`, on conflict move to `k + 1`. -/
def findFreeName (dir : List FileName) (stem suffix : FileName) :
    Nat → Nat → FileName
  | 0, k => conflictCandidate stem suffix k
  | fuel + 1, k =>
    let candidate := conflictCandidate stem suffix k
    if candidate ∈ dir then findFreeName dir stem suffix fuel (k + 1)
    else candidate

/-- `ingest.resolve_conflict_path` on a directory listing. -/
def resolve_conflict_path (dir : List FileName) (filename : FileName) :
    FileName :=
  if filename ∈ dir then
    findFreeName dir (pathSplit filename).1 (pathSplit filename).2
      (dir.length + 1) 1
  else filename

/-- Any run of `dir.length + 1` consecutive candidates contains a free one
(the candidates are pairwise distinct, so at most `dir.length` of them can
be occupied). -/
theorem exists_free_candidate (dir : List FileName) (stem suffix : FileName)
    (k0 : Nat) :
    ∃ i, i < dir.length + 1 ∧ conflictCandidate stem suffix (k0 + i) ∉ dir := by
  by_contra hcon
  push_neg at hcon
  have hnd : ((List.range (dir.length + 1)).map
      fun i => conflictCandidate stem suffix (k0 + i)).Nodup := by
    refine List.Nodup.map ?_ (List.nodup_range _)
    intro a b hab
    have := conflictCandidate_injective stem suffix hab
    omega
  have hsub : ∀ x ∈ (List.range (dir.length + 1)).map
      (fun i => conflictCandidate stem suffix (k0 + i)), x ∈ dir := by
    intro x hx
    rcases List.mem_map.mp hx with ⟨i, hi, rfl⟩
    exact hcon i (List.mem_range.mp hi)
  have h1 := List.toFinset_card_of_nodup hnd
  have h2 : ((List.range (dir.length + 1)).map
      (fun i => conflictCandidate stem suffix (k0 + i))).toFinset ⊆
      dir.toFinset := by
    intro x hx
    exact List.mem_toFinset.mpr (hsub x (List.mem_toFinset.mp hx))
  have h3 := Finset.card_le_card h2
  have h4 := dir.toFinset_card_le
  simp only [List.length_map, List.length_range] at h1
  omega

/-- `findFreeName` returns the first free candidate as long as some
candidate within the fuel window is free. -/
theorem findFreeName_spec (dir : List FileName) (stem suffix : FileName) :
    ∀ (fuel k : Nat),
      (∃ i, i < fuel ∧ conflictCandidate stem suffix (k + i) ∉ dir) →
      ∃ i, i < fuel ∧
        (∀ j, j < i → conflictCandidate stem suffix (k + j) ∈ dir) ∧
        conflictCandidate stem suffix (k + i) ∉ dir ∧
        findFreeName dir stem suffix fuel k =
          conflictCandidate stem suffix (k + i) := by
  intro fuel
  induction fuel with
  | zero =>
    intro k hex
    rcases hex with ⟨i, hi, _⟩
    omega
  | succ fuel ih =>
    intro k hex
    by_cases hc : conflictCandidate stem suffix k ∈ dir
    · have hex2 : ∃ i, i < fuel ∧
          conflictCandidate stem suffix (k + 1 + i) ∉ dir := by
        rcases hex with ⟨i, hi, hni⟩
        rcases Nat.eq_zero_or_pos i with rfl | hpos
        · exact absurd (by simpa using hc) (by simpa using hni)
        · refine ⟨i - 1, by omega, ?_⟩
          rwa [show k + 1 + (i - 1) = k + i by omega]
      rcases ih (k + 1) hex2 with ⟨i, hi, hall, hni, heq⟩
      refine ⟨i + 1, by omega, ?_, ?_, ?_⟩
      · intro j hj
        rcases Nat.eq_zero_or_pos j with rfl | hjpos
        · simpa using hc
        · have := hall (j - 1) (by omega)
          rwa [show k + 1 + (j - 1) = k + j by omega] at this
      · rwa [show k + (i + 1) = k + 1 + i by omega]
      · rw [findFreeName]
        simp only [hc, if_true]
        rw [heq, show k + 1 + i = k + (i + 1) by omega]
    · refine ⟨0, by omega, ?_, ?_, ?_⟩
      · intro j hj
        omega
      · simpa using hc
      · rw [findFreeName]
        simp [hc]

/-- `"clip.mp4"` as code points. -/
def clipMp4 : FileName := [99, 108, 105, 112, 46, 109, 112, 52]

/-- `"clip_1.mp4"` as code points. -/
def clip1Mp4 : FileName := [99, 108, 105, 112, 95, 49, 46, 109, 112, 52]

/-- `"clip_2.mp4"` as code points. -/
def clip2Mp4 : FileName := [99, 108, 105, 112, 95, 50, 46, 109, 112, 52]

/-- C7: for every directory state, `resolve_conflict_path` returns
`dir/filename` when the name is free; otherwise it returns the first of
`stem_1.ext, stem_2.ext, ...` that is free (every earlier candidate being
occupied); the returned name never names an existing file; and placing
`clip.mp4` into a directory already containing `clip.mp4` and `clip_1.mp4`
yields `clip_2.mp4`. -/
theorem resolve_conflict_path_c7 (dir : List FileName) (filename : FileName) :
    (filename ∉ dir → resolve_conflict_path dir filename = filename) ∧
    (filename ∈ dir →
      ∃ k, 1 ≤ k ∧
        resolve_conflict_path dir filename =
          conflictCandidate (pathSplit filename).1 (pathSplit filename).2 k ∧
        conflictCandidate (pathSplit filename).1 (pathSplit filename).2 k ∉ dir ∧
        ∀ j, 1 ≤ j → j < k →
          conflictCandidate (pathSplit filename).1 (pathSplit filename).2 j ∈ dir) ∧
    resolve_conflict_path dir filename ∉ dir ∧
    resolve_conflict_path [clipMp4, clip1Mp4] clipMp4 = clip2Mp4 := by
  have hmem : filename ∈ dir →
      ∃ k, 1 ≤ k ∧
        resolve_conflict_path dir filename =
          conflictCandidate (pathSplit filename).1 (pathSplit filename).2 k ∧
        conflictCandidate (pathSplit filename).1 (pathSplit filename).2 k ∉ dir ∧
        ∀ j, 1 ≤ j → j < k →
          conflictCandidate (pathSplit filename).1 (pathSplit filename).2 j ∈ dir := by
    intro hf
    rcases findFreeName_spec dir (pathSplit filename).1 (pathSplit filename).2
        (dir.length + 1) 1
        (exists_free_candidate dir (pathSplit filename).1 (pathSplit filename).2 1)
      with ⟨i, hi, hall, hni, heq⟩
    refine ⟨1 + i, by omega, ?_, hni, ?_⟩
    · rw [resolve_conflict_path, if_pos hf, heq]
    · intro j h1j hjk
      have := hall (j - 1) (by omega)
      rwa [show 1 + (j - 1) = j by omega] at this
  refine ⟨?_, hmem, ?_, ?_⟩
  · intro hnot
    rw [resolve_conflict_path, if_neg hnot]
  · by_cases hf : filename ∈ dir
    · rcases hmem hf with ⟨k, _, heq, hni, _⟩
      rw [heq]
      exact hni
    · rw [resolve_conflict_path, if_neg hf]
      exact hf
  · decide

/-- C7 witness: placing `clip.mp4` into a directory containing `clip.mp4`
and `clip_1.mp4` — the result is free, and a free name passes through
unchanged. -/
theorem resolve_conflict_path_c7_witness :
    resolve_conflict_path [clipMp4, clip1Mp4] clipMp4 ∉ [clipMp4, clip1Mp4] ∧
    (clip2Mp4 ∉ [clipMp4, clip1Mp4] →
      resolve_conflict_path [clipMp4, clip1Mp4] clip2Mp4 = clip2Mp4) :=
  ⟨(resolve_conflict_path_c7 [clipMp4, clip1Mp4] clipMp4).2.2.1,
   (resolve_conflict_path_c7 [clipMp4, clip1Mp4] clip2Mp4).1⟩

/-! ## Segment export loop (`app.py`, `_export_segments_for_tape`)

Per segment (app.py lines 370-488): when the output file already exists and
`force` is false the segment counts as skipped, `export_status` is set to
`'exported'`, `output_path` is recorded, and output metadata is written
through `COALESCE(?, column)` with parameters that are all `NULL` when the
three stored metadata fields are already truthy, and all freshly computed
from the existing file (`build_output_metadata`, app.py lines 167-178,
always produces all three values) when any of them is falsy.  Otherwise the
clip-extraction tool runs: on status `"exported"` plus an existing output
file the metadata is recomputed and stored with `export_status = 'exported'`;
any other outcome stores `export_status = 'failed'` and the output path.
(`export_segment_clip` itself is imported from `services.media` but absent
from the source tree; its result is an input of the embedding, and the skip
path never consults it.) -/

/-- Columns of a `segments` row that the export loop reads or writes. -/
structure SegmentRow where
  id : Nat
  tape_id : Nat
  start_seconds : Rat
  end_seconds : Rat
  output_path : String
  output_generated_at : Option String
  output_size_bytes : Option Int
  output_sha256 : Option String
  export_status : String
  deriving Repr, DecidableEq

/-- The three values `build_output_metadata` computes from the existing
output file (mtime timestamp, byte size, content digest); none of them is
optional. -/
structure OutputMetadata where
  output_generated_at : String
  output_size_bytes : Int
  output_sha256 : String
  deriving Repr, DecidableEq

/-- Python truthiness of a nullable TEXT column: `NULL` and `''` are
falsy. -/
def truthyOptStr : Option String → Bool
  | none => false
  | some s => s != ""

/-- Python truthiness of a nullable INTEGER column: `NULL` and `0` are
falsy. -/
def truthyOptInt : Option Int → Bool
  | none => false
  | some n => n != 0

/-- The `if (not ... or not ... or not ...)` test at app.py lines 378-382:
the stored output metadata is incomplete. -/
def metadataIncomplete (s : SegmentRow) : Bool :=
  !truthyOptStr s.output_generated_at || !truthyOptInt s.output_size_bytes ||
    !truthyOptStr s.output_sha256

/-- SQL `COALESCE(parameter, column)`. -/
def coalesce {α : Type} (x y : Option α) : Option α :=
  match x with
  | some v => some v
  | none => y

/-- The skip-branch UPDATE (app.py lines 384-401): `metadata` is `{}` (all
parameters `NULL`) when the stored metadata is complete and the freshly
computed `fileMeta` otherwise. -/
def skipUpdateSegment (outputPath : String) (fileMeta : OutputMetadata)
    (s : SegmentRow) : SegmentRow :=
  let metadata : Option OutputMetadata :=
    if metadataIncomplete s then some fileMeta else none
  { s with
    output_path := outputPath,
    output_generated_at :=
      coalesce (metadata.map (fun m => m.output_generated_at)) s.output_generated_at,
    output_size_bytes :=
      coalesce (metadata.map (fun m => m.output_size_bytes)) s.output_size_bytes,
    output_sha256 :=
      coalesce (metadata.map (fun m => m.output_sha256)) s.output_sha256,
    export_status := "exported" }

/-- Counter bucket of one loop iteration. -/
inductive SegmentOutcome
  | exported
  | skipped
  | failed
  deriving Repr, DecidableEq

/-- Result record of `export_segment_clip` as its caller consumes it:
a status string and a message. -/
structure ClipToolResult where
  status : String
  message : String
  deriving Repr, DecidableEq

/-- Result of one iteration of the export loop over a segment: the updated
row, which counter it incremented, and whether the clip tool was invoked. -/
structure SegmentStepResult where
  row : SegmentRow
  outcome : SegmentOutcome
  invokedTool : Bool
  deriving Repr, DecidableEq

/-- One iteration of the per-segment export loop (app.py lines 370-488).
`outputPathExists` is `output_path.exists()` before the iteration,
`afterToolExists` is the re-check after the tool ran, and `fileMeta` is what
`build_output_metadata(output_path)` would return. -/
def exportSegmentStep (outputPathExists force : Bool) (outputPath : String)
    (fileMeta : OutputMetadata) (toolResult : ClipToolResult)
    (afterToolExists : Bool) (s : SegmentRow) : SegmentStepResult :=
  if outputPathExists && !force then
    { row := skipUpdateSegment outputPath fileMeta s,
      outcome := SegmentOutcome.skipped, invokedTool := false }
  else if toolResult.status = "exported" && afterToolExists then
    { row := { s with
        output_path := outputPath,
        output_generated_at := some fileMeta.output_generated_at,
        output_size_bytes := some fileMeta.output_size_bytes,
        output_sha256 := some fileMeta.output_sha256,
        export_status := "exported" },
      outcome := SegmentOutcome.exported, invokedTool := true }
  else
    { row := { s with output_path := outputPath, export_status := "failed" },
      outcome := SegmentOutcome.failed, invokedTool := true }

/-- C9 (counterexample): on the skip path, a segment whose stored metadata
is partially present (timestamp and digest set, size missing) does NOT keep
its existing metadata fields: all three are overwritten with the values
recomputed from the existing file, so "only missing output metadata fields
are backfilled, existing ones are kept" is false on the code. -/
theorem export_skip_c9_counterexample :
    (exportSegmentStep true false "/seg/segment_001.mp4"
      { output_generated_at := "T9", output_size_bytes := 7,
        output_sha256 := "newhash" }
      { status := "exported", message := "" } true
      { id := 5, tape_id := 2, start_seconds := 0, end_seconds := 100,
        output_path := "", output_generated_at := some "T1",
        output_size_bytes := none, output_sha256 := some "oldhash",
        export_status := "failed" }).row.output_generated_at ≠ some "T1" ∧
    (exportSegmentStep true false "/seg/segment_001.mp4"
      { output_generated_at := "T9", output_size_bytes := 7,
        output_sha256 := "newhash" }
      { status := "exported", message := "" } true
      { id := 5, tape_id := 2, start_seconds := 0, end_seconds := 100,
        output_path := "", output_generated_at := some "T1",
        output_size_bytes := none, output_sha256 := some "oldhash",
        export_status := "failed" }).row.output_sha256 = some "newhash" := by
  constructor <;> decide

/-- C9 (amended): on the skip path of segment export (output exists,
`force` false) the segment's `export_status` becomes `'exported'` and its
`output_path` the existing file — for any previous `export_status`,
including `'failed'` — without invoking the clip tool; when all three stored
output metadata fields are present they are kept unchanged, and when any of
them is missing all three are overwritten with the values recomputed from
the existing file.  The time range and identity of the segment never
change. -/
theorem export_skip_c9_amended (outputPath : String)
    (fileMeta : OutputMetadata) (toolResult : ClipToolResult)
    (afterToolExists : Bool) (s : SegmentRow) :
    (exportSegmentStep true false outputPath fileMeta toolResult
        afterToolExists s).invokedTool = false ∧
    (exportSegmentStep true false outputPath fileMeta toolResult
        afterToolExists s).outcome = SegmentOutcome.skipped ∧
    (exportSegmentStep true false outputPath fileMeta toolResult
        afterToolExists s).row.export_status = "exported" ∧
    (exportSegmentStep true false outputPath fileMeta toolResult
        afterToolExists s).row.output_path = outputPath ∧
    (metadataIncomplete s = false →
      (exportSegmentStep true false outputPath fileMeta toolResult
          afterToolExists s).row.output_generated_at = s.output_generated_at ∧
      (exportSegmentStep true false outputPath fileMeta toolResult
          afterToolExists s).row.output_size_bytes = s.output_size_bytes ∧
      (exportSegmentStep true false outputPath fileMeta toolResult
          afterToolExists s).row.output_sha256 = s.output_sha256) ∧
    (metadataIncomplete s = true →
      (exportSegmentStep true false outputPath fileMeta toolResult
          afterToolExists s).row.output_generated_at =
        some fileMeta.output_generated_at ∧
      (exportSegmentStep true false outputPath fileMeta toolResult
          afterToolExists s).row.output_size_bytes =
        some fileMeta.output_size_bytes ∧
      (exportSegmentStep true false outputPath fileMeta toolResult
          afterToolExists s).row.output_sha256 =
        some fileMeta.output_sha256) ∧
    (exportSegmentStep true false outputPath fileMeta toolResult
        afterToolExists s).row.id = s.id ∧
    (exportSegmentStep true false outputPath fileMeta toolResult
        afterToolExists s).row.tape_id = s.tape_id ∧
    (exportSegmentStep true false outputPath fileMeta toolResult
        afterToolExists s).row.start_seconds = s.start_seconds ∧
    (exportSegmentStep true false outputPath fileMeta toolResult
        afterToolExists s).row.end_seconds = s.end_seconds := by
  refine ⟨rfl, rfl, rfl, rfl, ?_, ?_, rfl, rfl, rfl, rfl⟩
  · intro h
    refine ⟨?_, ?_, ?_⟩ <;>
      simp [exportSegmentStep, skipUpdateSegment, h, coalesce]
  · intro h
    refine ⟨?_, ?_, ?_⟩ <;>
      simp [exportSegmentStep, skipUpdateSegment, h, coalesce]

/-- C9 witness: a concrete skipped segment whose previous `export_status`
was `'failed'` with complete stored metadata: status flips to `'exported'`,
the tool is not invoked, and all metadata is kept. -/
theorem export_skip_c9_amended_witness :
    (exportSegmentStep true false "/seg/segment_002.mp4"
      { output_generated_at := "T9", output_size_bytes := 7,
        output_sha256 := "newhash" }
      { status := "error", message := "boom" } false
      { id := 6, tape_id := 2, start_seconds := 10, end_seconds := 200,
        output_path := "/old", output_generated_at := some "T1",
        output_size_bytes := some 5, output_sha256 := some "oldhash",
        export_status := "failed" }).invokedTool = false ∧
    (metadataIncomplete
      { id := 6, tape_id := 2, start_seconds := 10, end_seconds := 200,
        output_path := "/old", output_generated_at := some "T1",
        output_size_bytes := some 5, output_sha256 := some "oldhash",
        export_status := "failed" } = false →
      (exportSegmentStep true false "/seg/segment_002.mp4"
        { output_generated_at := "T9", output_size_bytes := 7,
          output_sha256 := "newhash" }
        { status := "error", message := "boom" } false
        { id := 6, tape_id := 2, start_seconds := 10, end_seconds := 200,
          output_path := "/old", output_generated_at := some "T1",
          output_size_bytes := some 5, output_sha256 := some "oldhash",
          export_status := "failed" }).row.output_generated_at = some "T1" ∧
      (exportSegmentStep true false "/seg/segment_002.mp4"
        { output_generated_at := "T9", output_size_bytes := 7,
          output_sha256 := "newhash" }
        { status := "error", message := "boom" } false
        { id := 6, tape_id := 2, start_seconds := 10, end_seconds := 200,
          output_path := "/old", output_generated_at := some "T1",
          output_size_bytes := some 5, output_sha256 := some "oldhash",
          export_status := "failed" }).row.output_size_bytes = some 5 ∧
      (exportSegmentStep true false "/seg/segment_002.mp4"
        { output_generated_at := "T9", output_size_bytes := 7,
          output_sha256 := "newhash" }
        { status := "error", message := "boom" } false
        { id := 6, tape_id := 2, start_seconds := 10, end_seconds := 200,
          output_path := "/old", output_generated_at := some "T1",
          output_size_bytes := some 5, output_sha256 := some "oldhash",
          export_status := "failed" }).row.output_sha256 = some "oldhash") :=
  ⟨(export_skip_c9_amended "/seg/segment_002.mp4"
      { output_generated_at := "T9", output_size_bytes := 7,
        output_sha256 := "newhash" }
      { status := "error", message := "boom" } false
      { id := 6, tape_id := 2, start_seconds := 10, end_seconds := 200,
        output_path := "/old", output_generated_at := some "T1",
        output_size_bytes := some 5, output_sha256 := some "oldhash",
        export_status := "failed" }).1,
   (export_skip_c9_amended "/seg/segment_002.mp4"
      { output_generated_at := "T9", output_size_bytes := 7,
        output_sha256 := "newhash" }
      { status := "error", message := "boom" } false
      { id := 6, tape_id := 2, start_seconds := 10, end_seconds := 200,
        output_path := "/old", output_generated_at := some "T1",
        output_size_bytes := some 5, output_sha256 := some "oldhash",
        export_status := "failed" }).2.2.2.2.1⟩
